import Mathlib

/-! LexBANK/BSM, document-processor: configuration loader and request
instrumentation chain.

A shallow embedding of `services/document-processor/internal/config/config.go`
and `services/document-processor/internal/api/{metrics,middleware,router}.go`,
followed by the theorems that settle the properties stated about them.

Conventions of the embedding:

* Go `int64` / `int` values are mathematical integers (`Int`); the only place
  where the machine width matters is the range check of `strconv.ParseInt`,
  which is explicit (`2 ^ (bitSize - 1)`).
* The process environment is a partial map from names to values; `os.Getenv`
  returns the empty string for a name that is not set.
* Stateful code (response writers, the log, the metrics registry, the clock)
  is written in state-passing style over `World`.
* A Go panic is an explicit `Outcome`: the statements that follow a panicking
  call in a function body do not run unless they are deferred.
* Requests are served one after the other; time is the integer clock of
  `World`, in nanoseconds (the unit of `time.Duration`). The clock moves by
  the durations an endpoint's behaviour states (`Action.Sleep`) and by
  nothing else, so a behaviour describes a run of the real chain only when
  it states how long the call took; no real call is shorter than the 30 ns
  bound `NewRouter` gives the timeout stage. The statements below about
  statuses are made for behaviours that carry their duration.
-/

namespace BSM

/-! ## `internal/config/config.go` -/

/-- The process environment: `none` for a variable that is not set. -/
abbrev Env := String → Option String

/-- Go `os.Getenv`: the value of the variable, or the empty string when it is not set. -/
def Getenv (e : Env) (key : String) : String := (e key).getD ""

/-- The environment `e` with `key` set to `value` (`os.Setenv`). -/
def Env.set (e : Env) (key value : String) : Env :=
  fun k => if k = key then some value else e k

/-- The environment `e` with `key` removed (`os.Unsetenv`). -/
def Env.unset (e : Env) (key : String) : Env :=
  fun k => if k = key then none else e k

/-- The environment in which no variable is set. -/
def Env.empty : Env := fun _ => none

/-- Value of a decimal digit character, `none` for any other character
(`strconv.ParseUint` in base 10 rejects everything outside `'0'..'9'`,
underscores included since the base is given explicitly). -/
def digitVal (c : Char) : Option Nat :=
  if '0' ≤ c ∧ c ≤ '9' then some (c.toNat - 48) else none

/-- The digit loop of `strconv.ParseUint(s, 10, _)`: accumulates `n*10 + d`
from the left, failing on the first character that is not a digit. The
accumulator is unbounded here; the range check is done on the result. -/
def ParseUint.loop : List Char → Nat → Option Nat
  | [], n => some n
  | c :: cs, n =>
    match digitVal c with
    | none => none
    | some d => ParseUint.loop cs (n * 10 + d)

/-- Go `strconv.ParseUint(s, 10, _)` before the range check: a syntax error
(`none`) on the empty string and on any non-digit. -/
def ParseUint (s : List Char) : Option Nat :=
  match s with
  | [] => none
  | _ :: _ => ParseUint.loop s 0

/-- Go `strconv.ParseInt(s, 10, bitSize)`, `none` standing for `err != nil`
(syntax error or range error): the empty string is an error; one leading
`+` or `-` is picked off; the rest must be a non-empty run of digits;
with `cutoff = 1 << (bitSize-1)` the value is out of range when it is
`>= cutoff` for a non-negative and `> cutoff` for a negative number. -/
def ParseInt (s : String) (bitSize : Nat) : Option Int :=
  match s.data with
  | [] => none
  | c :: cs =>
    let neg : Bool := c = '-'
    let rest : List Char := if c = '+' ∨ c = '-' then cs else c :: cs
    match ParseUint rest with
    | none => none
    | some un =>
      let cutoff : Nat := 2 ^ (bitSize - 1)
      if !neg && decide (un ≥ cutoff) then none
      else if neg && decide (un > cutoff) then none
      else some (if neg then -(un : Int) else (un : Int))

/-- Go `strconv.Atoi(s)`: by its documentation equivalent to
`ParseInt(s, 10, 0)` converted to `int`; bit size 0 means the platform
`int` size `intSize` (32 or 64). -/
def Atoi (intSize : Nat) (s : String) : Option Int := ParseInt s intSize

/-- Config holds the application configuration. -/
structure Config where
  Port : String
  LogLevel : String
  MaxFileSize : Int
  Workers : Int
  deriving DecidableEq, Repr

/-- `getEnv(key, defaultValue)`: the variable when it is non-empty, else the default. -/
def getEnv (e : Env) (key defaultValue : String) : String :=
  let value := Getenv e key
  if value ≠ "" then value else defaultValue

/-- `getEnvInt(key, defaultValue)`: the variable when it is non-empty and
`strconv.Atoi` accepts it, else the default. -/
def getEnvInt (intSize : Nat) (e : Env) (key : String) (defaultValue : Int) : Int :=
  let value := Getenv e key
  if value ≠ "" then
    match Atoi intSize value with
    | some intValue => intValue
    | none => defaultValue
  else defaultValue

/-- `getEnvInt64(key, defaultValue)`: the variable when it is non-empty and
`strconv.ParseInt(value, 10, 64)` accepts it, else the default. -/
def getEnvInt64 (e : Env) (key : String) (defaultValue : Int) : Int :=
  let value := Getenv e key
  if value ≠ "" then
    match ParseInt value 64 with
    | some intValue => intValue
    | none => defaultValue
  else defaultValue

/-- `Load()`: reads the configuration from the environment `e`; `intSize`
is the width of the platform `int`. -/
def Load (intSize : Nat) (e : Env) : Config :=
  { Port := getEnv e "PORT" "8080"
    LogLevel := getEnv e "LOG_LEVEL" "info"
    MaxFileSize := getEnvInt64 e "MAX_FILE_SIZE" (50 * 1024 * 1024)
    Workers := getEnvInt intSize e "WORKERS" 10 }

/-- The decimal representation of an integer (what `strconv.Itoa` prints):
a `-` sign for a negative number, then the digits without leading zeros. -/
def Itoa (n : Int) : String :=
  if n < 0 then "-" ++ Nat.repr n.natAbs else Nat.repr n.natAbs


/-! ## `internal/api/metrics.go` -/

/-- A labelled Prometheus counter (`*prometheus.CounterVec`): one child per
tuple of label values, created by the first `WithLabelValues` for that tuple.
Values only ever grow through `Inc`. -/
abbrev CounterVec := List (List String × Nat)

/-- A labelled Prometheus histogram (`*prometheus.HistogramVec`): per tuple of
label values, the observations made so far (durations, kept in nanoseconds;
the conversion `Duration.Seconds()` to a float and the bucketing by
`prometheus.DefBuckets` are not modelled, only which observations were made). -/
abbrev HistogramVec := List (List String × List Int)

/-- `c.WithLabelValues(lvs...).Inc()` for label values that are valid UTF-8
(the Prometheus client panics on any other, see `MetricsMiddleware`). -/
def CounterVec.Inc : CounterVec → List String → CounterVec
  | [], lvs => [(lvs, 1)]
  | (l, v) :: c, lvs => if l = lvs then (l, v + 1) :: c else (l, v) :: CounterVec.Inc c lvs

/-- Current value of the child at `lvs` (0 when it was never touched). -/
def CounterVec.value : CounterVec → List String → Nat
  | [], _ => 0
  | (l, v) :: c, lvs => if l = lvs then v else CounterVec.value c lvs

/-- Sum of the counter over all label combinations. -/
def CounterVec.total : CounterVec → Nat
  | [] => 0
  | (_, v) :: c => v + CounterVec.total c

/-- `h.WithLabelValues(lvs...).Observe(x)`. -/
def HistogramVec.Observe : HistogramVec → List String → Int → HistogramVec
  | [], lvs, x => [(lvs, [x])]
  | (l, obs) :: h, lvs, x =>
    if l = lvs then (l, obs ++ [x]) :: h else (l, obs) :: HistogramVec.Observe h lvs x

/-- Number of observations over all label combinations. -/
def HistogramVec.total : HistogramVec → Nat
  | [] => 0
  | (_, obs) :: h => obs.length + HistogramVec.total h

/-- The package-level metrics of `metrics.go`: `RequestsTotal` with labels
(method, endpoint, status), `RequestDuration` with labels (method, endpoint),
and the two unlabelled document counters. -/
structure Registry where
  RequestsTotal : CounterVec
  RequestDuration : HistogramVec
  DocumentsProcessed : Nat
  DocumentsProcessingErrors : Nat
  deriving DecidableEq, Repr

/-- The registry as `promauto` creates it at start-up: nothing counted yet. -/
def Registry.init : Registry :=
  { RequestsTotal := [], RequestDuration := [], DocumentsProcessed := 0,
    DocumentsProcessingErrors := 0 }

/-! ## The HTTP objects the middlewares act on -/

/-- The value of `r.URL.Path`. A Go string is a sequence of bytes: `text s` is
the UTF-8 encoding of `s`; `invalidUTF8 bytes` stands for a byte sequence that
is not valid UTF-8, such as the decoded path of `GET /health%ff`. -/
inductive URLPath where
  | text (s : String)
  | invalidUTF8 (bytes : List Nat)
  deriving DecidableEq, Repr

/-- Go `utf8.ValidString` on a path. -/
def URLPath.isText : URLPath → Bool
  | URLPath.text _ => true
  | URLPath.invalidUTF8 _ => false

/-- The parts of `*http.Request` the chain reads or sets. -/
structure Request where
  /-- Field `r.Method`. -/
  Method : String
  /-- Field `r.URL.Path`. -/
  Path : URLPath
  /-- Field `r.RemoteAddr`. -/
  RemoteAddr : String
  /-- Result of `r.UserAgent()`. -/
  UserAgent : String
  /-- Field `r.ProtoMajor`. -/
  ProtoMajor : Nat
  /-- Header `X-Request-Id`, "" when absent. -/
  XRequestId : String
  /-- Header `Connection`, "" when absent. -/
  Connection : String
  /-- The client address the proxy headers (True-Client-IP, X-Real-IP,
  X-Forwarded-For) give, "" when they give none. -/
  proxyAddr : String
  /-- The request id stored in the request context, "" when none is stored
  (what `middleware.GetReqID(r.Context())` returns). -/
  reqID : String
  deriving DecidableEq, Repr

/-- State of one chi `WrapResponseWriter` (`basicWriter`): the status code it
captured and whether a header went through it. -/
structure basicWriter where
  code : Nat
  wroteHeader : Bool
  deriving DecidableEq, Repr

/-- One structured access-log line as `LoggerMiddleware` writes it. -/
structure LogEntry where
  method : String
  path : URLPath
  status : Nat
  duration : Int
  remote_addr : String
  user_agent : String
  request_id : String
  deriving DecidableEq, Repr

/-- Everything the chain reads or changes while requests are served. -/
structure World where
  /-- The clock (`time.Now()`), in nanoseconds. -/
  now : Int
  /-- Whether the response header of the request in flight went out to the client. -/
  connWroteHeader : Bool
  /-- The status code sent to the client for the request in flight. -/
  connStatus : Nat
  /-- The wrap writers allocated for the request in flight. -/
  writers : List basicWriter
  /-- The access log (zerolog output at info level), oldest entry first. -/
  log : List LogEntry
  /-- The metrics registry. -/
  metrics : Registry
  /-- The counter behind generated request ids. -/
  reqid : Nat
  /-- The tag chi puts in front of generated request ids (host name and a
  random string, fixed when the process starts). -/
  idTag : String
  deriving DecidableEq, Repr

/-- A freshly started process at clock value `t` with request-id tag `tag`. -/
def World.init (t : Int) (tag : String) : World :=
  { now := t, connWroteHeader := false, connStatus := 0, writers := [], log := [],
    metrics := Registry.init, reqid := 0, idTag := tag }

/-- An `http.ResponseWriter` value: the wrap writers (positions in
`World.writers`) a header passes through on its way to the connection,
innermost first; `[]` is the server's own writer. -/
abbrev ResponseWriter := List Nat

/-- Whether a status code is informational: 1xx other than
`101 Switching Protocols`. -/
def informational (code : Nat) : Bool :=
  decide (100 ≤ code) && decide (code ≤ 199) && decide (code ≠ 101)

/-- `w.WriteHeader(code)`. The server's writer keeps the first final header
only, and sends an informational one without keeping it. A chi wrap writer
passes an informational code on without capturing it, records the first
final code it sees and passes it on (`b.code = code; b.wroteHeader = true;
b.ResponseWriter.WriteHeader(code)`), and drops a later final code. -/
def WriteHeader : ResponseWriter → Nat → World → World
  | [], code, s =>
    if s.connWroteHeader then s
    else if informational code then s
    else { s with connWroteHeader := true, connStatus := code }
  | i :: w, code, s =>
    match s.writers.get? i with
    | none => s
    | some b =>
      if informational code then WriteHeader w code s
      else if b.wroteHeader then s
      else WriteHeader w code { s with writers := s.writers.set i ⟨code, true⟩ }

/-- `w.Write(body)` as far as the status is concerned: a writer that has not
written a header yet writes `200 OK` first, then hands the body to the writer
it wraps. -/
def Write : ResponseWriter → World → World
  | [], s => WriteHeader [] 200 s
  | i :: w, s =>
    match s.writers.get? i with
    | none => s
    | some b => Write w (if b.wroteHeader then s else WriteHeader (i :: w) 200 s)

/-- `middleware.NewWrapResponseWriter(w, protoMajor)`: a new wrap writer around
`w` with no status captured yet. -/
def NewWrapResponseWriter (w : ResponseWriter) (_protoMajor : Nat) (s : World) :
    ResponseWriter × World :=
  (s.writers.length :: w, { s with writers := s.writers ++ [⟨0, false⟩] })

/-- `ww.Status()`: the code the wrap writer captured, 0 when no header went
through it. -/
def Status (ww : ResponseWriter) (s : World) : Nat :=
  match ww with
  | [] => s.connStatus
  | i :: _ => match s.writers.get? i with
    | none => 0
    | some b => b.code

/-- How a call of `ServeHTTP` ends: it returns, or it panics; the flag tells
whether the panic value is the sentinel `http.ErrAbortHandler`. -/
inductive Outcome where
  | returned
  | panicked (abort : Bool)
  deriving DecidableEq, Repr

/-- An `http.Handler`: `ServeHTTP(w, r)` as a state transformer. -/
abbrev Handler := ResponseWriter → Request → World → World × Outcome

/-- What an endpoint does that the chain can observe. -/
inductive Action where
  /-- The endpoint calls `w.WriteHeader(code)`. -/
  | WriteHeader (code : Nat)
  /-- The endpoint calls `w.Write(..)`. -/
  | Write
  /-- The endpoint takes `ns` nanoseconds. -/
  | Sleep (ns : Nat)
  deriving DecidableEq, Repr

/-- The observable behaviour of an endpoint on one request: the actions it
performs, in order, and how it ends. The endpoints themselves
(`HealthHandler`, `promhttp.Handler()`, `ParseDocumentHandler`,
`GetMetadataHandler`, chi's not-found responder) are defined elsewhere, so
every property of the chain quantifies over this. A `WriteHeader` action
carries a code the server accepts (100 to 999; `net/http` panics on any
other, and a panic is an `ending`). The `Sleep` actions carry the time the
call takes. -/
structure Behaviour where
  steps : List Action
  ending : Outcome
  deriving DecidableEq, Repr

/-- Runs the actions of an endpoint against the writer it was given. -/
def runSteps : List Action → ResponseWriter → World → World
  | [], _, s => s
  | Action.WriteHeader code :: as, w, s => runSteps as w (WriteHeader w code s)
  | Action.Write :: as, w, s => runSteps as w (Write w s)
  | Action.Sleep ns :: as, w, s => runSteps as w { s with now := s.now + ns }

/-- The handler with the given behaviour. -/
def Behaviour.handler (b : Behaviour) : Handler :=
  fun w _ s => (runSteps b.steps w s, b.ending)

/-- The table behind Go `http.StatusText`. -/
def statusTexts : List (Nat × String) :=
  [(100, "Continue"), (101, "Switching Protocols"), (102, "Processing"), (103, "Early Hints"),
   (200, "OK"), (201, "Created"), (202, "Accepted"), (203, "Non-Authoritative Information"),
   (204, "No Content"), (205, "Reset Content"), (206, "Partial Content"), (207, "Multi-Status"),
   (208, "Already Reported"), (226, "IM Used"),
   (300, "Multiple Choices"), (301, "Moved Permanently"), (302, "Found"), (303, "See Other"),
   (304, "Not Modified"), (305, "Use Proxy"), (307, "Temporary Redirect"),
   (308, "Permanent Redirect"),
   (400, "Bad Request"), (401, "Unauthorized"), (402, "Payment Required"), (403, "Forbidden"),
   (404, "Not Found"), (405, "Method Not Allowed"), (406, "Not Acceptable"),
   (407, "Proxy Authentication Required"), (408, "Request Timeout"), (409, "Conflict"),
   (410, "Gone"), (411, "Length Required"), (412, "Precondition Failed"),
   (413, "Request Entity Too Large"), (414, "Request URI Too Long"),
   (415, "Unsupported Media Type"), (416, "Requested Range Not Satisfiable"),
   (417, "Expectation Failed"), (418, "I\x27m a teapot"), (421, "Misdirected Request"),
   (422, "Unprocessable Entity"), (423, "Locked"), (424, "Failed Dependency"),
   (425, "Too Early"), (426, "Upgrade Required"), (428, "Precondition Required"),
   (429, "Too Many Requests"), (431, "Request Header Fields Too Large"),
   (451, "Unavailable For Legal Reasons"),
   (500, "Internal Server Error"), (501, "Not Implemented"), (502, "Bad Gateway"),
   (503, "Service Unavailable"), (504, "Gateway Timeout"),
   (505, "HTTP Version Not Supported"), (506, "Variant Also Negotiates"),
   (507, "Insufficient Storage"), (508, "Loop Detected"), (510, "Not Extended"),
   (511, "Network Authentication Required")]

/-- Go `http.StatusText(code)`: the reason phrase of a known status code, the
empty string for an unknown one (0 included). -/
def StatusText (code : Nat) : String := (statusTexts.lookup code).getD ""

/-! ## `internal/api/middleware.go` -/

/-- `LoggerMiddleware(next)`: notes the start time, wraps the writer, calls
`next`, and when `next` has returned appends one log entry with method, path,
captured status, duration, remote address, user agent and request id (the
zerolog logger is taken to be enabled at info level). The logging statement
is not deferred, so a panic of `next` passes through without an entry. -/
def LoggerMiddleware (next : Handler) : Handler := fun w r s =>
  let start := s.now
  let (ww, s₁) := NewWrapResponseWriter w r.ProtoMajor s
  match next ww r s₁ with
  | (s₂, Outcome.returned) =>
    ({ s₂ with
        log := s₂.log ++ [{ method := r.Method, path := r.Path, status := Status ww s₂,
                            duration := s₂.now - start, remote_addr := r.RemoteAddr,
                            user_agent := r.UserAgent, request_id := r.reqID }] },
      Outcome.returned)
  | (s₂, Outcome.panicked a) => (s₂, Outcome.panicked a)

/-- The two recording statements of `MetricsMiddleware`:
`RequestsTotal.WithLabelValues(method, path, StatusText(status)).Inc()` and
`RequestDuration.WithLabelValues(method, path).Observe(duration)`. -/
def recordMetrics (method path : String) (status : Nat) (duration : Int) (m : Registry) :
    Registry :=
  { m with
    RequestsTotal := m.RequestsTotal.Inc [method, path, StatusText status]
    RequestDuration := m.RequestDuration.Observe [method, path] duration }

/-- `MetricsMiddleware(next)`: notes the start time, wraps the writer, calls
`next`, and when `next` has returned records the two metrics. The recording
statements are not deferred, so a panic of `next` passes through without any
metric being recorded. `WithLabelValues` panics on a label value that is not
valid UTF-8; the method is a token and the status text is ASCII, so this
happens exactly when `r.URL.Path` is not valid UTF-8: then the first
recording statement panics and nothing is recorded. -/
def MetricsMiddleware (next : Handler) : Handler := fun w r s =>
  let start := s.now
  let (ww, s₁) := NewWrapResponseWriter w r.ProtoMajor s
  match next ww r s₁ with
  | (s₂, Outcome.returned) =>
    let duration := s₂.now - start
    match r.Path with
    | URLPath.text path =>
      ({ s₂ with metrics := recordMetrics r.Method path (Status ww s₂) duration s₂.metrics },
        Outcome.returned)
    | URLPath.invalidUTF8 _ => (s₂, Outcome.panicked false)
  | (s₂, Outcome.panicked a) => (s₂, Outcome.panicked a)

/-! ## The chi stages used by the router -/

/-- Zero-padded decimal of width 6 (`%06d`). -/
def pad6 (n : Nat) : String :=
  String.mk (List.replicate (6 - (Nat.repr n).length) '0') ++ Nat.repr n

/-- Modelled from the spec: chi's `middleware.RequestID`, a third-party stage
whose source is not among the repository's files. §4.3(1): it "generates or
propagates a unique identifier for the request, attached to request-scoped
context". The incoming `X-Request-Id` is propagated; otherwise the process
counter is advanced and the id is `<tag>-<counter, 6 digits>`. -/
def RequestID (next : Handler) : Handler := fun w r s =>
  if r.XRequestId ≠ "" then next w { r with reqID := r.XRequestId } s
  else
    let myid := s.reqid + 1
    next w { r with reqID := s.idTag ++ "-" ++ pad6 myid } { s with reqid := myid }

/-- Modelled from the spec: chi's `middleware.RealIP`, a third-party stage
whose source is not among the repository's files. §4.3(2): it "determines the
originating client address from trusted proxy headers (or the raw connection)
and overrides the apparent remote address used by later stages". -/
def RealIP (next : Handler) : Handler := fun w r s =>
  if r.proxyAddr ≠ "" then next w { r with RemoteAddr := r.proxyAddr } s else next w r s

/-- Status 500 Internal Server Error. -/
def StatusInternalServerError : Nat := 500

/-- Status 504 Gateway Timeout. -/
def StatusGatewayTimeout : Nat := 504

/-- Modelled from the spec: chi's `middleware.Recoverer`, a third-party stage
whose source is not among the repository's files. §4.3(4): it "intercepts any
abnormal termination raised by the handler or inner middleware; on
interception, converts it into a 500-class response and allows the request to
complete normally". It does so with `w.WriteHeader(500)` on the writer it was
given, which changes nothing when a header already went through that writer.
Two cases chi leaves alone are kept apart: the sentinel panic
`http.ErrAbortHandler` is raised again, and for a request with header
`Connection: Upgrade` no header is written. -/
def Recoverer (next : Handler) : Handler := fun w r s =>
  match next w r s with
  | (s₁, Outcome.returned) => (s₁, Outcome.returned)
  | (s₁, Outcome.panicked true) => (s₁, Outcome.panicked true)
  | (s₁, Outcome.panicked false) =>
    (if r.Connection ≠ "Upgrade" then WriteHeader w StatusInternalServerError s₁ else s₁,
      Outcome.returned)

/-- Modelled from the spec: chi's `middleware.Timeout(timeout)`, a third-party
stage whose source is not among the repository's files; `timeout` is a
`time.Duration`, an integer number of nanoseconds. §4.3(5): it "bounds total
handler execution to a fixed duration; if exceeded, the in-flight handler is
cancelled/abandoned and a timeout response is returned to the client". chi
does this with a context deadline `timeout` after entry: the handler is
signalled through its context, and in a deferred function, when the deadline
has passed by the time the handler returns or panics, the stage writes the
header `504 Gateway Timeout`. Whether the deadline has passed is read off the
clock of `World`, which moves by what the endpoint's behaviour states. -/
def Timeout (timeout : Int) (next : Handler) : Handler := fun w r s =>
  let deadline := s.now + timeout
  match next w r s with
  | (s₁, out) =>
    (if deadline ≤ s₁.now then WriteHeader w StatusGatewayTimeout s₁ else s₁, out)

/-- Go `time.Second` as a `time.Duration`: 10^9 nanoseconds. -/
def Second : Int := 1000000000

/-! ## `internal/api/router.go` -/

/-- The middlewares a router can be given, by name. -/
inductive Stage where
  | RequestID
  | RealIP
  | LoggerMiddleware
  | Recoverer
  | Timeout (timeout : Int)
  | MetricsMiddleware
  deriving DecidableEq, Repr

/-- The `func(http.Handler) http.Handler` a stage name stands for. -/
def Stage.wrap : Stage → Handler → Handler
  | Stage.RequestID => BSM.RequestID
  | Stage.RealIP => BSM.RealIP
  | Stage.LoggerMiddleware => BSM.LoggerMiddleware
  | Stage.Recoverer => BSM.Recoverer
  | Stage.Timeout t => BSM.Timeout t
  | Stage.MetricsMiddleware => BSM.MetricsMiddleware

/-- One registered route: method ("*" for every method), full pattern and the
name of the endpoint. -/
structure Route where
  method : String
  pattern : String
  endpoint : String
  deriving DecidableEq, Repr

/-- What `NewRouter` builds of a `*chi.Mux`: the middleware stack in the order
of the `Use` calls and the routing table in the order of registration. -/
structure Mux where
  middlewares : List Stage
  routes : List Route
  deriving DecidableEq, Repr

/-- `chi.NewRouter()`. -/
def Mux.new : Mux := { middlewares := [], routes := [] }

/-- `mx.Use(m)`: appends `m` to the middleware stack. chi panics (`none`) when
a route has already been registered ("all middlewares must be defined before
routes on a mux"). -/
def Mux.Use (mx : Mux) (m : Stage) : Option Mux :=
  if mx.routes.isEmpty then some { mx with middlewares := mx.middlewares ++ [m] } else none

/-- `mx.Method(method, pattern, h)` and its shorthands `Get`, `Post`, `Handle`. -/
def Mux.handle (mx : Mux) (method pattern endpoint : String) : Mux :=
  { mx with routes := mx.routes ++ [{ method := method, pattern := pattern,
                                       endpoint := endpoint }] }

/-- `mx.Route(pattern, fn)`: builds a fresh sub-router with `fn` and mounts its
routes under `pattern`. -/
def Mux.Route (mx : Mux) (pattern : String) (fn : Mux → Option Mux) : Option Mux :=
  match fn Mux.new with
  | none => none
  | some sub =>
    some { mx with
      routes := mx.routes ++ sub.routes.map (fun rt => { rt with pattern := pattern ++ rt.pattern }) }

/-- `NewRouter(cfg)`: the six `Use` calls, then the routes. -/
def NewRouter (_cfg : Config) : Option Mux := do
  let r := Mux.new
  -- Middleware
  let r ← r.Use Stage.RequestID
  let r ← r.Use Stage.RealIP
  let r ← r.Use Stage.LoggerMiddleware
  let r ← r.Use Stage.Recoverer
  let r ← r.Use (Stage.Timeout 30)
  let r ← r.Use Stage.MetricsMiddleware
  -- Health check endpoint
  let r := r.handle "GET" "/health" "HealthHandler"
  -- Metrics endpoint
  let r := r.handle "*" "/metrics" "promhttp.Handler"
  -- API routes
  r.Route "/api/v1" (fun r =>
    r.Route "/documents" (fun r =>
      let r := r.handle "POST" "/parse" "ParseDocumentHandler"
      let r := r.handle "GET" "/{id}/metadata" "GetMetadataHandler"
      some r))

/-- chi's `chain(middlewares, endpoint)`: the first middleware of the stack is
the outermost wrapper. -/
def chain (ms : List (Handler → Handler)) (endpoint : Handler) : Handler :=
  ms.foldr (fun m h => m h) endpoint

/-- `mx.ServeHTTP`: the middleware stack around the route dispatcher
`routeHTTP`. -/
def Mux.ServeHTTP (mx : Mux) (routeHTTP : Handler) : Handler :=
  chain (mx.middlewares.map Stage.wrap) routeHTTP

/-- The server handling one request with the router `mx`: a fresh connection
writer, `mx.ServeHTTP` around the endpoint the request is dispatched to
(`b` is what that endpoint does on this request), and when the handler has
returned without any header the implicit `200 OK` of `net/http`. -/
def serve (mx : Mux) (r : Request) (b : Behaviour) (s : World) : World × Outcome :=
  match mx.ServeHTTP b.handler [] r
      { s with connWroteHeader := false, connStatus := 0, writers := [] } with
  | (s₁, Outcome.returned) => (WriteHeader [] 200 s₁, Outcome.returned)
  | (s₁, Outcome.panicked a) => (s₁, Outcome.panicked a)

/-- The server handling a sequence of requests one after the other. A panic
that reaches the server ends that request only. -/
def serveAll (mx : Mux) : List (Request × Behaviour) → World → World
  | [], s => s
  | (r, b) :: rest, s => serveAll mx rest (serve mx r b s).1

/-- The router of the service: what `NewRouter` returns. (`NewRouter` does
not panic; were it to, the empty router would stand in.) -/
def router (cfg : Config) : Mux := (NewRouter cfg).getD Mux.new

/-! ## Vocabulary of the statements -/

/-- The four inner stages of the router's chain around an endpoint with
behaviour `b`: logging, recovery, timeout `t`, metrics. -/
def innerChain (t : Int) (b : Behaviour) : Handler :=
  LoggerMiddleware (Recoverer (Timeout t (MetricsMiddleware b.handler)))

/-- Number of requests of a sequence that get counted: the endpoint returns
and the path is valid UTF-8. -/
def countReturned : List (Request × Behaviour) → Nat
  | [] => 0
  | (r, b) :: rest =>
    (if b.ending = Outcome.returned ∧ r.Path.isText = true then 1 else 0) + countReturned rest

/-- Number of requests of a sequence whose endpoint returns or panics with a
value other than `http.ErrAbortHandler`. -/
def countCompleted : List (Request × Behaviour) → Nat
  | [] => 0
  | (_, b) :: rest =>
    (if b.ending = Outcome.panicked true then 0 else 1) + countCompleted rest

/-- A plain `GET /health` request from a command-line client, with no proxy
or request-id headers. -/
def getHealth : Request :=
  { Method := "GET", Path := URLPath.text "/health", RemoteAddr := "10.0.0.1:51234",
    UserAgent := "curl/8.5.0", ProtoMajor := 1, XRequestId := "", Connection := "",
    proxyAddr := "", reqID := "" }

/-- The router as it would be with the timeout written as `30 * time.Second`. -/
def routerWith30Seconds (cfg : Config) : Mux :=
  { router cfg with
    middlewares := [Stage.RequestID, Stage.RealIP, Stage.LoggerMiddleware, Stage.Recoverer,
                    Stage.Timeout (30 * Second), Stage.MetricsMiddleware] }

/-! ### Facts about the decimal parser -/

theorem digitVal_digitChar (k : Nat) (hk : k < 10) : digitVal (Nat.digitChar k) = some k := by
  interval_cases k <;> decide

theorem loop_toDigitsCore (fuel : Nat) :
    ∀ (n : Nat) (ds : List Char), n < fuel →
      ParseUint.loop (Nat.toDigitsCore 10 fuel n ds) 0 = ParseUint.loop ds n := by
  induction fuel with
  | zero => intro n ds h; omega
  | succ fuel ih =>
    intro n ds h
    unfold Nat.toDigitsCore
    by_cases h0 : n / 10 = 0
    · have hn : n % 10 = n := Nat.mod_eq_of_lt (by omega)
      simp only [h0, if_true]
      rw [ParseUint.loop, digitVal_digitChar _ (Nat.mod_lt _ (by decide))]
      simp [hn]
    · simp only [h0, if_false]
      rw [ih (n / 10) _ (by omega)]
      rw [ParseUint.loop, digitVal_digitChar _ (Nat.mod_lt _ (by decide))]
      have : n / 10 * 10 + n % 10 = n := by omega
      simp [this]

theorem toDigitsCore_head (fuel : Nat) :
    ∀ (n : Nat) (ds : List Char), n < fuel →
      ∃ k tl, k < 10 ∧ Nat.toDigitsCore 10 fuel n ds = Nat.digitChar k :: tl := by
  induction fuel with
  | zero => intro n ds h; omega
  | succ fuel ih =>
    intro n ds h
    unfold Nat.toDigitsCore
    by_cases h0 : n / 10 = 0
    · exact ⟨n % 10, ds, Nat.mod_lt _ (by decide), by simp [h0]⟩
    · simp only [h0, if_false]
      exact ih (n / 10) _ (by omega)

theorem repr_data (n : Nat) : (Nat.repr n).data = Nat.toDigits 10 n := rfl

theorem digitChar_not_sign (k : Nat) (hk : k < 10) :
    Nat.digitChar k ≠ '+' ∧ Nat.digitChar k ≠ '-' := by
  interval_cases k <;> decide

theorem ParseUint_toDigits (n : Nat) : ParseUint (Nat.toDigits 10 n) = some n := by
  obtain ⟨k, tl, _, hk⟩ := toDigitsCore_head (n + 1) n [] (by omega)
  have h := loop_toDigitsCore (n + 1) n [] (by omega)
  unfold Nat.toDigits
  rw [hk] at h ⊢
  simpa [ParseUint, ParseUint.loop] using h

/-- Parsing the decimal representation of `n` gives `n` back, provided `n`
fits the signed `bitSize`-bit range. -/
theorem ParseInt_Itoa (bitSize : Nat) (n : Int)
    (hlo : -(2 ^ (bitSize - 1) : Int) ≤ n) (hhi : n < (2 ^ (bitSize - 1) : Int)) :
    ParseInt (Itoa n) bitSize = some n := by
  by_cases hn : n < 0
  · have hd : (Itoa n).data = '-' :: Nat.toDigits 10 n.natAbs := by
      simp [Itoa, hn, String.data_append, repr_data]
    have hle : n.natAbs ≤ 2 ^ (bitSize - 1) := by
      have habs : ((n.natAbs : Nat) : Int) = -n := by omega
      have : ((n.natAbs : Nat) : Int) ≤ ((2 ^ (bitSize - 1) : Nat) : Int) := by
        rw [habs]; push_cast; omega
      exact_mod_cast this
    unfold ParseInt
    rw [hd]
    simp only [if_true, or_true, ParseUint_toDigits, decide_True, Bool.not_true,
      Bool.false_and, Bool.true_and, decide_eq_true_eq, Bool.false_eq_true, if_false]
    rw [if_neg (by omega)]
    congr 1
    omega
  · obtain ⟨k, tl, hk10, hk⟩ := toDigitsCore_head (n.natAbs + 1) n.natAbs [] (by omega)
    have hd : (Itoa n).data = Nat.digitChar k :: tl := by
      simp [Itoa, hn, repr_data, Nat.toDigits, hk]
    have hp : ParseUint (Nat.digitChar k :: tl) = some n.natAbs := by
      have := ParseUint_toDigits n.natAbs
      unfold Nat.toDigits at this
      rwa [hk] at this
    have hlt : n.natAbs < 2 ^ (bitSize - 1) := by
      have habs : ((n.natAbs : Nat) : Int) = n := by omega
      have : ((n.natAbs : Nat) : Int) < ((2 ^ (bitSize - 1) : Nat) : Int) := by
        rw [habs]; push_cast; omega
      exact_mod_cast this
    obtain ⟨h1, h2⟩ := digitChar_not_sign k hk10
    unfold ParseInt
    rw [hd]
    simp only [h1, h2, or_self, if_false, hp, decide_False, Bool.not_false, Bool.true_and,
      decide_eq_true_eq, Bool.false_and, Bool.false_eq_true]
    rw [if_neg (by omega)]
    congr 1
    omega

theorem Itoa_ne_empty (n : Int) : Itoa n ≠ "" := by
  intro h
  have hd : (Itoa n).data = [] := by rw [h]
  by_cases hn : n < 0
  · simp [Itoa, hn, String.data_append] at hd
  · obtain ⟨k, tl, _, hk⟩ := toDigitsCore_head (n.natAbs + 1) n.natAbs [] (by omega)
    simp [Itoa, hn, repr_data, Nat.toDigits, hk] at hd

theorem Getenv_set_self (e : Env) (k v : String) : Getenv (e.set k v) k = v := by
  simp [Getenv, Env.set]

theorem Getenv_set_other (e : Env) (k v k' : String) (h : k' ≠ k) :
    Getenv (e.set k v) k' = Getenv e k' := by
  simp [Getenv, Env.set, h]

theorem Getenv_set_empty (e : Env) (k k' : String) :
    Getenv (e.set k "") k' = Getenv (e.unset k) k' := by
  by_cases h : k' = k <;> simp [Getenv, Env.set, Env.unset, h]

theorem getEnv_ne_empty (e : Env) (key d : String) (hd : d ≠ "") : getEnv e key d ≠ "" := by
  unfold getEnv
  by_cases h : Getenv e key = "" <;> simp [h, hd]


/-! ### Configuration loader: the settled properties -/

/-- C7: in every environment where none of PORT, LOG_LEVEL, MAX_FILE_SIZE and
WORKERS is set, `Load` returns Port "8080", LogLevel "info", MaxFileSize
52428800 (which is 50 * 1024 * 1024) and Workers 10; and two environments
that agree on these four variables give equal configs. -/
theorem Load_defaults_and_dependence (intSize : Nat) :
    (∀ e : Env, e "PORT" = none → e "LOG_LEVEL" = none → e "MAX_FILE_SIZE" = none →
        e "WORKERS" = none →
        Load intSize e =
          { Port := "8080", LogLevel := "info", MaxFileSize := 52428800, Workers := 10 }) ∧
    (52428800 : Int) = 50 * 1024 * 1024 ∧
    (∀ e₁ e₂ : Env, e₁ "PORT" = e₂ "PORT" → e₁ "LOG_LEVEL" = e₂ "LOG_LEVEL" →
        e₁ "MAX_FILE_SIZE" = e₂ "MAX_FILE_SIZE" → e₁ "WORKERS" = e₂ "WORKERS" →
        Load intSize e₁ = Load intSize e₂) := by
  refine ⟨?_, by norm_num, ?_⟩
  · intro e hP hL hM hW
    simp [Load, getEnv, getEnvInt, getEnvInt64, Getenv, hP, hL, hM, hW]
  · intro e₁ e₂ hP hL hM hW
    simp [Load, getEnv, getEnvInt, getEnvInt64, Getenv, hP, hL, hM, hW]

/-- Witness for C7: the empty environment gives the defaults, and an
environment that only sets an unrelated variable loads the same config. -/
theorem Load_defaults_and_dependence_witness :
    Load 64 Env.empty =
        { Port := "8080", LogLevel := "info", MaxFileSize := 52428800, Workers := 10 } ∧
    Load 64 (Env.empty.set "HOME" "/root") = Load 64 Env.empty :=
  ⟨(Load_defaults_and_dependence 64).1 Env.empty rfl rfl rfl rfl,
   (Load_defaults_and_dependence 64).2.2 _ _ (by decide) (by decide) (by decide) (by decide)⟩

/-- C8: `Load` is total (it returns a `Config`, never an error), and a
MAX_FILE_SIZE that `strconv.ParseInt(_, 10, 64)` rejects (for example
"notanumber", or 2^63 which is out of the 64-bit range) gives MaxFileSize
52428800, while a WORKERS that `strconv.Atoi` rejects gives Workers 10. -/
theorem Load_invalid_numbers_fall_back (intSize : Nat) (e : Env) (v : String) :
    (e "MAX_FILE_SIZE" = some v → ParseInt v 64 = none →
        (Load intSize e).MaxFileSize = 52428800) ∧
    (e "WORKERS" = some v → Atoi intSize v = none → (Load intSize e).Workers = 10) ∧
    (Load intSize (e.set "MAX_FILE_SIZE" "notanumber")).MaxFileSize = 52428800 ∧
    (Load intSize (e.set "MAX_FILE_SIZE" "9223372036854775808")).MaxFileSize = 52428800 ∧
    (Load intSize (e.set "WORKERS" "notanumber")).Workers = 10 := by
  have h1 : ParseInt "notanumber" 64 = none := by decide
  have h2 : ParseInt "9223372036854775808" 64 = none := by decide
  have h3 : Atoi intSize "notanumber" = none := by
    simp [Atoi, ParseInt, ParseUint, ParseUint.loop, digitVal]
  refine ⟨?_, ?_, ?_, ?_, ?_⟩
  · intro hv hp
    by_cases hne : v = "" <;> simp [Load, getEnvInt64, Getenv, hv, hp, hne]
  · intro hv hp
    by_cases hne : v = "" <;> simp [Load, getEnvInt, Getenv, hv, hp, hne]
  · simp [Load, getEnvInt64, Getenv_set_self, h1]
  · simp [Load, getEnvInt64, Getenv_set_self, h2]
  · simp [Load, getEnvInt, Getenv_set_self, h3]

/-- Witness for C8: an environment whose MAX_FILE_SIZE and WORKERS are both
the unparsable "12x" loads both defaults. -/
theorem Load_invalid_numbers_fall_back_witness :
    (Load 64 ((Env.empty.set "MAX_FILE_SIZE" "12x").set "WORKERS" "12x")).MaxFileSize
        = 52428800 ∧
    (Load 64 ((Env.empty.set "MAX_FILE_SIZE" "12x").set "WORKERS" "12x")).Workers = 10 :=
  ⟨(Load_invalid_numbers_fall_back 64
      ((Env.empty.set "MAX_FILE_SIZE" "12x").set "WORKERS" "12x") "12x").1
      (by decide) (by decide),
   (Load_invalid_numbers_fall_back 64
      ((Env.empty.set "MAX_FILE_SIZE" "12x").set "WORKERS" "12x") "12x").2.1
      (by decide) (by decide)⟩

/-- C9: for every integer `n` in the range of the platform `int`
(`-2^(intSize-1) ≤ n < 2^(intSize-1)`), `Load` with WORKERS set to the decimal
representation of `n` returns Workers = `n`, and the other three fields are
what `Load` reads from their own variables (setting WORKERS does not change
them). -/
theorem Load_workers_roundtrip (intSize : Nat) (e : Env) (n : Int)
    (hlo : -(2 ^ (intSize - 1) : Int) ≤ n) (hhi : n < (2 ^ (intSize - 1) : Int)) :
    (Load intSize (e.set "WORKERS" (Itoa n))).Workers = n ∧
    (Load intSize (e.set "WORKERS" (Itoa n))).Port = getEnv e "PORT" "8080" ∧
    (Load intSize (e.set "WORKERS" (Itoa n))).LogLevel = getEnv e "LOG_LEVEL" "info" ∧
    (Load intSize (e.set "WORKERS" (Itoa n))).MaxFileSize
        = getEnvInt64 e "MAX_FILE_SIZE" (50 * 1024 * 1024) := by
  refine ⟨?_, ?_, ?_, ?_⟩
  · simp [Load, getEnvInt, Getenv_set_self, Itoa_ne_empty, Atoi, ParseInt_Itoa intSize n hlo hhi]
  · simp [Load, getEnv, Getenv_set_other e "WORKERS" _ "PORT" (by decide)]
  · simp [Load, getEnv, Getenv_set_other e "WORKERS" _ "LOG_LEVEL" (by decide)]
  · simp [Load, getEnvInt64, Getenv_set_other e "WORKERS" _ "MAX_FILE_SIZE" (by decide)]

/-- Witness for C9: WORKERS=7 on a 64-bit platform gives Workers = 7. -/
theorem Load_workers_roundtrip_witness :
    (Load 64 (Env.empty.set "WORKERS" "7")).Workers = 7 :=
  (Load_workers_roundtrip 64 Env.empty 7 (by norm_num) (by norm_num)).1

/-- C10: a variable set to the empty string is treated exactly like an unset
one: for every environment `e` and every key `k` (PORT, LOG_LEVEL,
MAX_FILE_SIZE and WORKERS among them) `Load` on `e` with `k` set to ""
equals `Load` on `e` with `k` removed; PORT="" yields Port "8080"; and the
Port and LogLevel of a loaded config are never empty. -/
theorem Load_empty_value_is_unset (intSize : Nat) (e : Env) (k : String) :
    Load intSize (e.set k "") = Load intSize (e.unset k) ∧
    (Load intSize (e.set "PORT" "")).Port = "8080" ∧
    (Load intSize e).Port ≠ "" ∧ (Load intSize e).LogLevel ≠ "" := by
  refine ⟨?_, ?_, ?_, ?_⟩
  · simp [Load, getEnv, getEnvInt, getEnvInt64, Getenv_set_empty]
  · simp [Load, getEnv, Getenv_set_self]
  · exact getEnv_ne_empty e "PORT" "8080" (by decide)
  · exact getEnv_ne_empty e "LOG_LEVEL" "info" (by decide)

/-! ### Facts about the metric vectors -/

theorem CounterVec.total_Inc (c : CounterVec) (l : List String) :
    (c.Inc l).total = c.total + 1 := by
  induction c with
  | nil => simp [CounterVec.Inc, CounterVec.total]
  | cons hd tl ih =>
    obtain ⟨k, v⟩ := hd
    by_cases hk : k = l <;> simp [CounterVec.Inc, CounterVec.total, hk, ih] <;> omega

theorem HistogramVec.total_Observe (c : HistogramVec) (l : List String) (x : Int) :
    (c.Observe l x).total = c.total + 1 := by
  induction c with
  | nil => simp [HistogramVec.Observe, HistogramVec.total]
  | cons hd tl ih =>
    obtain ⟨k, v⟩ := hd
    by_cases hk : k = l <;> simp [HistogramVec.Observe, HistogramVec.total, hk, ih] <;> omega

/-! ### What writing a header leaves alone -/

theorem WriteHeader_frame (w : ResponseWriter) (code : Nat) (s : World) :
    (WriteHeader w code s).log = s.log ∧ (WriteHeader w code s).metrics = s.metrics ∧
    (WriteHeader w code s).reqid = s.reqid ∧ (WriteHeader w code s).now = s.now := by
  induction w generalizing s with
  | nil =>
    unfold WriteHeader
    by_cases h : s.connWroteHeader <;> by_cases hi : informational code <;> simp [h, hi]
  | cons i w ih =>
    unfold WriteHeader
    cases hg : s.writers.get? i with
    | none => simp
    | some b =>
      by_cases hi : informational code
      · simp only [hi, if_true]
        exact ih s
      · by_cases hb : b.wroteHeader
        · simp [hi, hb]
        · simp only [hi, hb, Bool.false_eq_true, if_false]
          have := ih { s with writers := s.writers.set i ⟨code, true⟩ }
          simpa using this

theorem Write_frame (w : ResponseWriter) (s : World) :
    (Write w s).log = s.log ∧ (Write w s).metrics = s.metrics ∧
    (Write w s).reqid = s.reqid ∧ (Write w s).now = s.now := by
  induction w generalizing s with
  | nil =>
    unfold Write
    exact WriteHeader_frame [] 200 s
  | cons i w ih =>
    unfold Write
    cases hg : s.writers.get? i with
    | none => simp
    | some b =>
      by_cases hb : b.wroteHeader
      · simp only [hb, if_true]
        exact ih s
      · simp only [hb, Bool.false_eq_true, if_false]
        have h1 := ih (WriteHeader (i :: w) 200 s)
        have h2 := WriteHeader_frame (i :: w) 200 s
        exact ⟨h1.1.trans h2.1, h1.2.1.trans h2.2.1, h1.2.2.1.trans h2.2.2.1,
          h1.2.2.2.trans h2.2.2.2⟩

theorem runSteps_frame (steps : List Action) (w : ResponseWriter) (s : World) :
    (runSteps steps w s).log = s.log ∧ (runSteps steps w s).metrics = s.metrics ∧
    (runSteps steps w s).reqid = s.reqid := by
  induction steps generalizing s with
  | nil => simp [runSteps]
  | cons a as ih =>
    cases a with
    | WriteHeader code =>
      have h1 := ih (WriteHeader w code s)
      have h2 := WriteHeader_frame w code s
      exact ⟨h1.1.trans h2.1, h1.2.1.trans h2.2.1, h1.2.2.trans h2.2.2.1⟩
    | Write =>
      have h1 := ih (Write w s)
      have h2 := Write_frame w s
      exact ⟨h1.1.trans h2.1, h1.2.1.trans h2.2.1, h1.2.2.trans h2.2.2.1⟩
    | Sleep ns =>
      have h1 := ih { s with now := s.now + ns }
      exact h1

theorem innerChain_counts (t : Int) (b : Behaviour) (w : ResponseWriter) (r : Request)
    (s : World) :
    ((innerChain t b w r s).1.log.length =
        s.log.length + (if b.ending = Outcome.panicked true then 0 else 1)) ∧
    ((innerChain t b w r s).1.metrics.RequestsTotal.total =
        s.metrics.RequestsTotal.total +
          (if b.ending = Outcome.returned ∧ r.Path.isText = true then 1 else 0)) ∧
    ((innerChain t b w r s).1.metrics.RequestDuration.total =
        s.metrics.RequestDuration.total +
          (if b.ending = Outcome.returned ∧ r.Path.isText = true then 1 else 0)) ∧
    ((innerChain t b w r s).2 =
        (if b.ending = Outcome.panicked true then Outcome.panicked true
         else Outcome.returned)) := by
  obtain ⟨steps, ending⟩ := b
  have hf := fun w' s' => runSteps_frame steps w' s'
  have hw := fun w' c s' => WriteHeader_frame w' c s'
  cases ending with
  | returned =>
    cases hp : r.Path <;>
    simp only [innerChain, LoggerMiddleware, Recoverer, Timeout, MetricsMiddleware,
      Behaviour.handler, NewWrapResponseWriter, recordMetrics, hp, URLPath.isText] <;>
    split_ifs <;> simp_all [CounterVec.total_Inc, HistogramVec.total_Observe]
  | panicked a =>
    cases a <;>
    simp only [innerChain, LoggerMiddleware, Recoverer, Timeout, MetricsMiddleware,
      Behaviour.handler, NewWrapResponseWriter, recordMetrics] <;>
    split_ifs <;> simp_all

/-- What `serve` does with the router of the service: the request-id and
real-IP stages only prepare the request (and advance the id counter), then
the inner chain runs on a fresh connection. -/
theorem serve_router (cfg : Config) (r : Request) (b : Behaviour) (s : World) :
    ∃ (r' : Request) (s₀ : World),
      r'.Method = r.Method ∧ r'.Path = r.Path ∧ r'.Connection = r.Connection ∧
      r'.ProtoMajor = r.ProtoMajor ∧
      s₀.log = s.log ∧ s₀.metrics = s.metrics ∧ s₀.now = s.now ∧ s₀.writers = [] ∧
      s₀.connWroteHeader = false ∧
      serve (router cfg) r b s =
        (match innerChain 30 b [] r' s₀ with
         | (s₁, Outcome.returned) => (WriteHeader [] 200 s₁, Outcome.returned)
         | (s₁, Outcome.panicked a) => (s₁, Outcome.panicked a)) := by
  have hserve : serve (router cfg) r b s =
      (match RequestID (RealIP (innerChain 30 b)) [] r
          { s with connWroteHeader := false, connStatus := 0, writers := [] } with
       | (s₁, Outcome.returned) => (WriteHeader [] 200 s₁, Outcome.returned)
       | (s₁, Outcome.panicked a) => (s₁, Outcome.panicked a)) := rfl
  rw [hserve]
  by_cases hx : r.XRequestId = "" <;> by_cases hp : r.proxyAddr = ""
  · exact ⟨{ r with reqID := s.idTag ++ "-" ++ pad6 (s.reqid + 1) },
      { s with connWroteHeader := false, connStatus := 0, writers := [], reqid := s.reqid + 1 },
      rfl, rfl, rfl, rfl, rfl, rfl, rfl, rfl, rfl, by simp [RequestID, RealIP, hx, hp]⟩
  · exact ⟨{ r with reqID := s.idTag ++ "-" ++ pad6 (s.reqid + 1), RemoteAddr := r.proxyAddr },
      { s with connWroteHeader := false, connStatus := 0, writers := [], reqid := s.reqid + 1 },
      rfl, rfl, rfl, rfl, rfl, rfl, rfl, rfl, rfl, by simp [RequestID, RealIP, hx, hp]⟩
  · exact ⟨{ r with reqID := r.XRequestId },
      { s with connWroteHeader := false, connStatus := 0, writers := [] },
      rfl, rfl, rfl, rfl, rfl, rfl, rfl, rfl, rfl, by simp [RequestID, RealIP, hx, hp]⟩
  · exact ⟨{ r with reqID := r.XRequestId, RemoteAddr := r.proxyAddr },
      { s with connWroteHeader := false, connStatus := 0, writers := [] },
      rfl, rfl, rfl, rfl, rfl, rfl, rfl, rfl, rfl, by simp [RequestID, RealIP, hx, hp]⟩

theorem serve_counts (cfg : Config) (r : Request) (b : Behaviour) (s : World) :
    (serve (router cfg) r b s).1.log.length =
        s.log.length + (if b.ending = Outcome.panicked true then 0 else 1) ∧
    (serve (router cfg) r b s).1.metrics.RequestsTotal.total =
        s.metrics.RequestsTotal.total +
          (if b.ending = Outcome.returned ∧ r.Path.isText = true then 1 else 0) ∧
    (serve (router cfg) r b s).1.metrics.RequestDuration.total =
        s.metrics.RequestDuration.total +
          (if b.ending = Outcome.returned ∧ r.Path.isText = true then 1 else 0) := by
  obtain ⟨r', s₀, _, hP, _, _, hlog, hmet, _, _, _, hserve⟩ := serve_router cfg r b s
  have hc := innerChain_counts 30 b [] r' s₀
  rw [hserve]
  generalize innerChain 30 b [] r' s₀ = res at hc
  obtain ⟨s₁, out⟩ := res
  rw [hlog, hmet, hP] at hc
  have hw := WriteHeader_frame [] 200 s₁
  cases out with
  | returned => simpa [hw.1, hw.2.1] using ⟨hc.1, hc.2.1, hc.2.2.1⟩
  | panicked a => simpa using ⟨hc.1, hc.2.1, hc.2.2.1⟩

/-! ### Router and middleware chain: the settled properties -/

/-- C1: `NewRouter` installs exactly six middlewares, in the order request-id,
real-IP, `LoggerMiddleware`, recoverer, timeout, `MetricsMiddleware`; every
`Use` comes before the first route (a `Use` on a mux that already has a route
panics, and `NewRouter` does not), and the handler the router serves is the
route dispatcher wrapped by the six stages, the first one outermost. -/
theorem NewRouter_middlewares (cfg : Config) (routeHTTP : Handler) :
    NewRouter cfg = some
      { middlewares := [Stage.RequestID, Stage.RealIP, Stage.LoggerMiddleware, Stage.Recoverer,
                        Stage.Timeout 30, Stage.MetricsMiddleware]
        routes := [⟨"GET", "/health", "HealthHandler"⟩, ⟨"*", "/metrics", "promhttp.Handler"⟩,
                   ⟨"POST", "/api/v1/documents/parse", "ParseDocumentHandler"⟩,
                   ⟨"GET", "/api/v1/documents/{id}/metadata", "GetMetadataHandler"⟩] } ∧
    (router cfg).middlewares.length = 6 ∧
    (∀ (mx mx' : Mux) (m : Stage), mx.Use m = some mx' → mx.routes = []) ∧
    (router cfg).ServeHTTP routeHTTP =
      RequestID (RealIP (LoggerMiddleware (Recoverer (Timeout 30
        (MetricsMiddleware routeHTTP))))) := by
  refine ⟨rfl, rfl, ?_, rfl⟩
  intro mx mx' m h
  unfold Mux.Use at h
  by_cases hr : mx.routes.isEmpty
  · simpa using hr
  · simp [hr] at h

/-- C2, evaluated: three `GET /health` requests through the router, each
endpoint taking 1000 ns: the first answers with a body (200), the second
panics, the third returns without writing anything. The access log gets three
entries (statuses 200, 504, 504), the request counter totals two and the
duration histogram holds two observations: the panicking request is logged
but not counted. -/
theorem panicking_request_is_logged_but_not_counted :
    (serveAll (router (Load 64 Env.empty))
        [(getHealth, ⟨[Action.Sleep 1000, Action.Write], Outcome.returned⟩),
         (getHealth, ⟨[Action.Sleep 1000], Outcome.panicked false⟩),
         (getHealth, ⟨[Action.Sleep 1000], Outcome.returned⟩)]
        (World.init 0 "host")).log.map LogEntry.status = [200, 504, 504] ∧
    (serveAll (router (Load 64 Env.empty))
        [(getHealth, ⟨[Action.Sleep 1000, Action.Write], Outcome.returned⟩),
         (getHealth, ⟨[Action.Sleep 1000], Outcome.panicked false⟩),
         (getHealth, ⟨[Action.Sleep 1000], Outcome.returned⟩)]
        (World.init 0 "host")).log.length = 3 ∧
    (serveAll (router (Load 64 Env.empty))
        [(getHealth, ⟨[Action.Sleep 1000, Action.Write], Outcome.returned⟩),
         (getHealth, ⟨[Action.Sleep 1000], Outcome.panicked false⟩),
         (getHealth, ⟨[Action.Sleep 1000], Outcome.returned⟩)]
        (World.init 0 "host")).metrics.RequestsTotal.total = 2 ∧
    (serveAll (router (Load 64 Env.empty))
        [(getHealth, ⟨[Action.Sleep 1000, Action.Write], Outcome.returned⟩),
         (getHealth, ⟨[Action.Sleep 1000], Outcome.panicked false⟩),
         (getHealth, ⟨[Action.Sleep 1000], Outcome.returned⟩)]
        (World.init 0 "host")).metrics.RequestDuration.total = 2 := by
  refine ⟨by decide, by decide, by decide, by decide⟩

/-- C4, evaluated, each endpoint taking 1000 ns. For an endpoint that returns
without writing anything, the client gets 504 and the log records 504, while
the counter is incremented at the status text of code 0 (the empty string).
For a panicking endpoint the client gets 504 and the log records 504 (the
timeout stage's header goes out before the recovery stage's), while no
counter entry exists. -/
theorem metrics_status_is_not_the_final_status :
    ((serve (router (Load 64 Env.empty)) getHealth ⟨[Action.Sleep 1000], Outcome.returned⟩
        (World.init 0 "host")).1.connStatus = 504 ∧
     (serve (router (Load 64 Env.empty)) getHealth ⟨[Action.Sleep 1000], Outcome.returned⟩
        (World.init 0 "host")).1.log.map LogEntry.status = [504] ∧
     (serve (router (Load 64 Env.empty)) getHealth ⟨[Action.Sleep 1000], Outcome.returned⟩
        (World.init 0 "host")).1.metrics.RequestsTotal = [(["GET", "/health", ""], 1)] ∧
     StatusText 504 = "Gateway Timeout" ∧ StatusText 0 = "") ∧
    ((serve (router (Load 64 Env.empty)) getHealth ⟨[Action.Sleep 1000], Outcome.panicked false⟩
        (World.init 0 "host")).1.connStatus = 504 ∧
     (serve (router (Load 64 Env.empty)) getHealth ⟨[Action.Sleep 1000], Outcome.panicked false⟩
        (World.init 0 "host")).1.log.map LogEntry.status = [504] ∧
     (serve (router (Load 64 Env.empty)) getHealth ⟨[Action.Sleep 1000], Outcome.panicked false⟩
        (World.init 0 "host")).1.metrics.RequestsTotal = []) := by
  refine ⟨⟨by decide, by decide, by decide, by decide, by decide⟩, by decide, by decide, by decide⟩

/-- C6, evaluated: the duration `NewRouter` hands to the timeout stage is 30,
that is 30 nanoseconds, not `30 * time.Second` = 30000000000 ns. An endpoint
that takes 1000 ns (far less than 30 seconds) and writes nothing is answered
with 504 by the router as built, and with 200 when the bound is 30 seconds. -/
theorem NewRouter_timeout_is_30_nanoseconds (cfg : Config) :
    (router cfg).middlewares.get? 4 = some (Stage.Timeout 30) ∧
    (30 : Int) ≠ 30 * Second ∧ 30 * Second = 30000000000 ∧
    (serve (router cfg) getHealth ⟨[Action.Sleep 1000], Outcome.returned⟩
        (World.init 0 "host")).1.connStatus = 504 ∧
    (serve (routerWith30Seconds cfg) getHealth ⟨[Action.Sleep 1000], Outcome.returned⟩
        (World.init 0 "host")).1.connStatus = 200 := by
  refine ⟨rfl, by decide, by decide, rfl, rfl⟩

/-! ### Further properties of the chain -/

/-- For every sequence of requests served by the router, from any state: the
access log grows by the number of requests whose endpoint returned or
panicked with a recoverable value, and both the total of the request counter
and the number of duration observations grow by the number of requests whose
endpoint returned and whose path is valid UTF-8. -/
theorem serveAll_counts (cfg : Config) (reqs : List (Request × Behaviour)) (s : World) :
    (serveAll (router cfg) reqs s).log.length = s.log.length + countCompleted reqs ∧
    (serveAll (router cfg) reqs s).metrics.RequestsTotal.total =
        s.metrics.RequestsTotal.total + countReturned reqs ∧
    (serveAll (router cfg) reqs s).metrics.RequestDuration.total =
        s.metrics.RequestDuration.total + countReturned reqs := by
  induction reqs generalizing s with
  | nil => simp [serveAll, countCompleted, countReturned]
  | cons rb rest ih =>
    obtain ⟨r, b⟩ := rb
    have h1 := serve_counts cfg r b s
    have h2 := ih (serve (router cfg) r b s).1
    simp only [serveAll, countCompleted, countReturned]
    refine ⟨?_, ?_, ?_⟩
    · rw [h2.1, h1.1]; omega
    · rw [h2.2.1, h1.2.1]; omega
    · rw [h2.2.2, h1.2.2]; omega

end BSM
